import Mathlib

/-!
Verification of the Infinite Wiki session orchestrator.

This file gives a shallow embedding of the tab/session data model and of the
orchestration logic of the application (the main data-fetching effect, the
topic router, the result cache, history navigation, local pagination, the
diagram side-channel and the tab store), translated from the TypeScript
source (`App` component and its handlers), and proves or refutes the frozen
behavioural claims about it.

Conventions of the embedding:
- JavaScript strings are `String`; truthiness of a nullable string field
  (`null` or `''` both falsy) is modelled by `nonEmptyOpt`.
- JavaScript numbers used as indices are `Int` where the source can produce
  negative values (`Math.min(currentPage+1, pages.length-1)` is `-1` for an
  empty page list) and `Nat` where the source keeps them non-negative
  (`webSectionIndex` starts at 0, `Math.max(i-1,0)` and `i+1` preserve it).
- The `Map` result cache is an association list where a write prepends the
  entry; `List.lookup` returns the most recent binding, which matches
  `Map.get` after `Map.set` overwrites.
- The two regular expressions used for routing are implemented as explicit
  character-list matchers equivalent to the source patterns
  `^(https?:\/\/)?(www\.)?(youtube\.com|youtu\.be)\/.+$` (flag i) and
  `^(https?:\/\/[^\s]+\.[^\s]+)` (flag i).
-/

/-- Whitespace class of JavaScript regular expressions and of
`String.prototype.trim` (the characters matched by `\s`). -/
def isJsSpaceChar (c : Char) : Bool :=
  c == '\t' || c == '\n' || c == Char.ofNat 0x0b || c == Char.ofNat 0x0c ||
  c == '\r' || c == ' ' || c == Char.ofNat 0xa0 || c == Char.ofNat 0x1680 ||
  (0x2000 ≤ c.toNat && c.toNat ≤ 0x200a) ||
  c == Char.ofNat 0x2028 || c == Char.ofNat 0x2029 || c == Char.ofNat 0x202f ||
  c == Char.ofNat 0x205f || c == Char.ofNat 0x3000 || c == Char.ofNat 0xfeff

/-- Line terminators, the characters not matched by `.` in a JavaScript
regular expression without the `s` flag. -/
def isJsLineTerminator (c : Char) : Bool :=
  c == '\n' || c == '\r' || c == Char.ofNat 0x2028 || c == Char.ofNat 0x2029

/-- ASCII lowercasing of a character list; `Char.toLower` only affects
`A`-`Z`, which models the effect of the `i` regex flag on the ASCII
pattern literals involved. -/
def asciiLowerList (cs : List Char) : List Char :=
  cs.map Char.toLower

/-- JavaScript `String.prototype.toLowerCase` restricted to ASCII, used for
topic normalisation in the cache fingerprint. -/
def jsToLower (s : String) : String :=
  String.mk (asciiLowerList s.data)

/-- JavaScript `String.prototype.trim`: strip `\s` characters from both
ends. -/
def jsTrim (s : String) : String :=
  String.mk (((s.data.dropWhile isJsSpaceChar).reverse.dropWhile isJsSpaceChar).reverse)

/-- If `cs` starts with the literal `tag`, return the remainder after it. -/
def stripLit : List Char → List Char → Option (List Char)
  | [], cs => some cs
  | _ :: _, [] => none
  | p :: ps, c :: cs => if c == p then stripLit ps cs else none

/-- Scanner for the tail of the URL regex `[^\s]+\.[^\s]+` after the scheme:
`seen` records whether at least one non-whitespace character has been
consumed before the candidate dot. Backtracking of the greedy `[^\s]+` is
reflected by trying every dot position inside the leading non-whitespace
run. -/
def urlDotScan : List Char → Bool → Bool
  | [], _ => false
  | c :: rest, seen =>
    if isJsSpaceChar c then false
    else
      (if c == '.' && seen then
        match rest with
        | d :: _ => !isJsSpaceChar d
        | [] => false
      else false)
      || urlDotScan rest true

/-- The source test ``isUrl = /^(https?:\/\/[^\s]+\.[^\s]+)/i.test(s)``:
a required `http`/`https` scheme followed by a non-whitespace run
containing a dot with a non-whitespace character after it. -/
def isUrl (s : String) : Bool :=
  let cs := asciiLowerList s.data
  let rest? :=
    match stripLit ("https://".data) cs with
    | some r => some r
    | none => stripLit ("http://".data) cs
  match rest? with
  | some r => urlDotScan r false
  | none => false

/-- The source test
``isYouTubeUrl = /^(https?:\/\/)?(www\.)?(youtube\.com|youtu\.be)\/.+$/i.test(s)``:
optional scheme, optional `www.`, host `youtube.com` or `youtu.be`, a slash
and a non-empty path free of line terminators. -/
def isYouTubeUrl (s : String) : Bool :=
  let cs := asciiLowerList s.data
  let cs1 :=
    match stripLit ("https://".data) cs with
    | some r => r
    | none =>
      match stripLit ("http://".data) cs with
      | some r => r
      | none => cs
  let cs2 :=
    match stripLit ("www.".data) cs1 with
    | some r => r
    | none => cs1
  let rest? :=
    match stripLit ("youtube.com/".data) cs2 with
    | some r => some r
    | none => stripLit ("youtu.be/".data) cs2
  match rest? with
  | some r => decide (r ≠ []) && r.all (fun c => !isJsLineTerminator c)
  | none => false

/-- Binary attachment stored on a tab (`FileData` in the source): base64
payload together with its declared mime type. -/
structure FileData where
  base64 : String
  mimeType : String
deriving DecidableEq, Repr

/-- One finalized cache entry (`CachedTopicState` in the source). -/
structure CachedTopicState where
  content : String
  generationTime : Option Nat
  sources : List String
  language : String
deriving DecidableEq, Repr

/-- One browsing session (the `Tab` interface of the source). Grounding
sources and diagram images are kept as opaque strings; `generatedDiagrams`
is the prompt-to-image record as an association list. -/
structure Tab where
  id : String
  title : String
  historyStack : List String
  futureStack : List String
  currentTopic : String
  content : String
  isLoading : Bool
  error : Option String
  generationTime : Option Nat
  groundingSources : List String
  isWebSearchMode : Bool
  isEbookMode : Bool
  documentName : Option String
  documentContext : Option String
  fileData : Option FileData
  ebookPages : List String
  currentPage : Int
  webUrl : Option String
  webSectionIndex : Nat
  generatedDiagrams : List (String × String)
  language : String
deriving DecidableEq, Repr

/-- The `createNewTab` constructor of the source: a fresh default session. -/
def createNewTab (id : String) : Tab :=
  { id := id
    title := "New Tab"
    historyStack := []
    futureStack := []
    currentTopic := ""
    content := ""
    isLoading := false
    error := none
    generationTime := none
    groundingSources := []
    isWebSearchMode := false
    isEbookMode := false
    documentName := none
    documentContext := none
    fileData := none
    ebookPages := []
    currentPage := 0
    webUrl := none
    webSectionIndex := 0
    generatedDiagrams := []
    language := "English" }

/-- JavaScript truthiness of a nullable string: `null` and `''` are falsy. -/
def nonEmptyOpt : Option String → Bool
  | some s => s != ""
  | none => false

/-- The result cache: fingerprint to finalized generation state. -/
abbrev Cache := List (String × CachedTopicState)

/-- The cache fingerprint computed by the main data-fetching effect:
`(web:|wiki:)(doc(name):)?topic.toLowerCase():sectionIndex:language`. -/
def cacheKey (t : Tab) : String :=
  (if t.isWebSearchMode then "web:" else "wiki:") ++
  (match t.documentName with
   | some n => if n == "" then "" else "doc(" ++ n ++ "):"
   | none => "") ++
  jsToLower t.currentTopic ++ ":" ++ toString t.webSectionIndex ++ ":" ++ t.language

example : isYouTubeUrl "https://youtu.be/abc123" = true := by decide
example : isYouTubeUrl "Hypertext" = false := by decide
example : isYouTubeUrl "youtube.com/" = false := by decide
example : isYouTubeUrl "WWW.YouTube.Com/watch" = true := by decide
example : isUrl "https://youtu.be/abc123" = true := by decide
example : isUrl "Hypertext" = false := by decide
example : isUrl "http://x" = false := by decide
example : jsTrim "  a b  " = "a b" := by decide
example : cacheKey { createNewTab "default-tab" with currentTopic := "Hypertext", isLoading := true, title := "Hypertext" } = "wiki:hypertext:0:English" := by decide

/-- True when the tab carries a binary attachment with an image mime type
(`activeTab.fileData && activeTab.fileData.mimeType.startsWith('image/')`). -/
def hasImageAttachment (t : Tab) : Bool :=
  match t.fileData with
  | some fd => fd.mimeType.startsWith "image/"
  | none => false

/-- The seven generation strategies selected by the branch ordering of
`fetchData` (the Topic Router). -/
inductive Strategy
  | imageAnalysis
  | videoSummary
  | webResource
  | docQueryWithSearch
  | webSearch
  | docQuery
  | definition
deriving DecidableEq, Repr

/-- Strategy selection, translated from the if/else chain of `fetchData`:
image attachment, then YouTube URL, then generic URL without a loaded
document, then web-search mode (with or without a document), then document
query, else wiki definition. -/
def selectStrategy (t : Tab) : Strategy :=
  let trimmedTopic := jsTrim t.currentTopic
  if hasImageAttachment t then .imageAnalysis
  else if isYouTubeUrl trimmedTopic then .videoSummary
  else if isUrl trimmedTopic && !nonEmptyOpt t.documentContext && t.fileData.isNone then .webResource
  else if t.isWebSearchMode then
    if nonEmptyOpt t.documentContext || !t.fileData.isNone then .docQueryWithSearch
    else .webSearch
  else if nonEmptyOpt t.documentContext || !t.fileData.isNone then .docQuery
  else .definition

/-- The local-pagination ebook branch guard of the main effect:
`isEbookMode && !isWebSearchMode && !fileData && documentContext`. -/
def ebookLocalText (t : Tab) : Bool :=
  t.isEbookMode && !t.isWebSearchMode && t.fileData.isNone && nonEmptyOpt t.documentContext

/-- `ebookPages[i] ?? ''` with a JavaScript number index: out-of-range or
negative indexing yields `undefined`, coalesced to the empty string. -/
def pageAtD (pages : List String) (i : Int) : String :=
  if i < 0 then "" else pages.getD i.toNat ""

/-- What one run of the main data-fetching effect decides to do.
`fetch` means a network call against the Content Generation Service is
issued for the given strategy, caching under the given fingerprint;
`translate` is the distinct streaming translation call of the ebook branch;
`hydrate` serves the cached entry with no network call; `setEbookPage`
displays a local page; `idle` does nothing. -/
inductive FetchAction
  | idle
  | setEbookPage (page : String)
  | translate (pageText : String) (lang : String)
  | hydrate (entry : CachedTopicState)
  | fetch (strat : Strategy) (key : String)
deriving DecidableEq, Repr

/-- The decision logic at the top of the main data-fetching effect,
translated in order from the source: empty topic guard, the ebook
local-text branch (with its translation sub-branch), the cache check
(`cache.has(key) && !isLoading && content === ''`), the
`if (!isLoading) return` guard, and otherwise `fetchData` with the routed
strategy. -/
def mainEffectAction (t : Tab) (cache : Cache) : FetchAction :=
  if t.currentTopic == "" then .idle
  else if ebookLocalText t then
    let pageContent := pageAtD t.ebookPages t.currentPage
    if t.language != "English" then
      if t.isLoading then .translate pageContent t.language else .idle
    else if t.content != pageContent then .setEbookPage pageContent
    else .idle
  else
    match List.lookup (cacheKey t) cache with
    | some entry =>
      if !t.isLoading && t.content == "" then .hydrate entry
      else if !t.isLoading then .idle
      else .fetch (selectStrategy t) (cacheKey t)
    | none =>
      if !t.isLoading then .idle else .fetch (selectStrategy t) (cacheKey t)

/-- Hydration from a cache hit: the session fields written by the
`updateActiveTab` call of the cache branch. -/
def applyHydrate (t : Tab) (entry : CachedTopicState) : Tab :=
  { t with
    content := entry.content
    generationTime := entry.generationTime
    groundingSources := entry.sources
    error := none
    isLoading := false
    title := t.currentTopic }

/-- One event of a generation stream: a text delta and an optional updated
source list (`{ type: 'chunk', text, sources? }`). -/
structure StreamEv where
  text : String
  sources : Option (List String)
deriving DecidableEq, Repr

/-- Terminal outcome of a generation stream: normal completion, or the
stream throwing mid-way with an error message. -/
inductive StreamOutcome
  | ok
  | err (msg : String)
deriving DecidableEq, Repr

/-- Chunk accumulation of `fetchData`: text deltas are appended in order
and each delivered source list replaces the previous one. -/
def accumulate (evs : List StreamEv) : String × List String :=
  evs.foldl
    (fun acc e =>
      (acc.1 ++ e.text,
       match e.sources with
       | some s => s
       | none => acc.2))
    ("", [])

/-- `activeTab.documentName || activeTab.currentTopic`, the title written on
completion. -/
def titleOf (t : Tab) : String :=
  match t.documentName with
  | some n => if n == "" then t.currentTopic else n
  | none => t.currentTopic

/-- One complete, non-cancelled run of `fetchData` for the captured tab:
the streamed chunks are applied to the session content (and source list),
the `catch` block sets the error field on a thrown stream error, and the
`finally` block runs in both cases, writing the fingerprint's cache entry
from the accumulated refs and clearing the loading flag. `genTime` is the
measured elapsed time. -/
def runFetch (t : Tab) (cache : Cache) (evs : List StreamEv)
    (outcome : StreamOutcome) (genTime : Nat) : Tab × Cache :=
  let acc := accumulate evs
  let entry : CachedTopicState :=
    { content := acc.1, generationTime := some genTime, sources := acc.2, language := t.language }
  let errField : Option String :=
    match outcome with
    | .ok => t.error
    | .err m => some m
  ({ t with
      content := acc.1
      groundingSources := acc.2
      error := errField
      isLoading := false
      generationTime := some genTime
      title := titleOf t },
   (cacheKey t, entry) :: cache)

/-- One complete, non-cancelled run of the ebook-branch `fetchTranslation`:
chunks of `streamTranslation(pageContent, language)` are accumulated into
the session content and the loading flag is cleared afterwards. The branch
contains no `setCache` call, so the cache is passed through unchanged. -/
def runTranslation (t : Tab) (cache : Cache) (chunks : List String) : Tab × Cache :=
  ({ t with content := String.join chunks, isLoading := false }, cache)

/-- `handleTopicChange`: a fresh topic selection pushes the departed topic
onto the history stack, clears the future stack, clears content, sets the
loading flag and resets the web-reading state. -/
def handleTopicChange (newTopic : String) (t : Tab) : Tab :=
  if newTopic == "" then t
  else
    { t with
      historyStack :=
        if t.currentTopic != "" then t.historyStack ++ [t.currentTopic] else t.historyStack
      futureStack := []
      currentTopic := newTopic
      content := ""
      isLoading := true
      error := none
      title := newTopic
      webUrl := if isUrl (jsTrim newTopic) then some (jsTrim newTopic) else none
      webSectionIndex := 0
      generatedDiagrams := [] }

/-- `handleBack`: no-op on an empty history stack; otherwise pop the most
recent topic into current, push the departed topic onto the future stack
and reset the remote section index. -/
def handleBack (t : Tab) : Tab :=
  match t.historyStack.getLast? with
  | none => t
  | some prevTopic =>
    { t with
      historyStack := t.historyStack.dropLast
      futureStack := t.currentTopic :: t.futureStack
      currentTopic := prevTopic
      isLoading := true
      error := none
      title := prevTopic
      webSectionIndex := 0 }

/-- `handleForward`: the mirror of `handleBack` using the future stack. -/
def handleForward (t : Tab) : Tab :=
  match t.futureStack with
  | [] => t
  | nextTopic :: newFuture =>
    { t with
      historyStack := t.historyStack ++ [t.currentTopic]
      futureStack := newFuture
      currentTopic := nextTopic
      isLoading := true
      error := none
      title := nextTopic
      webSectionIndex := 0 }

/-- `handlePrevPage`: clamp the local page index at 0; when the session
language is not the base language, set the loading flag to force the
translation branch, otherwise display the page directly. -/
def handlePrevPage (t : Tab) : Tab :=
  let newPage := max (t.currentPage - 1) 0
  let isTranslationNeeded := t.language != "English"
  { t with
    currentPage := newPage
    isLoading := isTranslationNeeded
    content := if isTranslationNeeded then "" else pageAtD t.ebookPages newPage }

/-- `handleNextPage`: `Math.min(currentPage + 1, ebookPages.length - 1)`,
which is `-1` when the page list is empty; same translation handling as
`handlePrevPage`. -/
def handleNextPage (t : Tab) : Tab :=
  let newPage := min (t.currentPage + 1) ((t.ebookPages.length : Int) - 1)
  let isTranslationNeeded := t.language != "English"
  { t with
    currentPage := newPage
    isLoading := isTranslationNeeded
    content := if isTranslationNeeded then "" else pageAtD t.ebookPages newPage }

/-- The Session Store: the tab collection plus the active-session selector. -/
structure SessionStore where
  tabs : List Tab
  activeTabId : String
deriving DecidableEq, Repr

/-- The initial store, seeded with one default session
(`useState([createNewTab('default-tab')])`). -/
def initialStore : SessionStore :=
  { tabs := [createNewTab "default-tab"], activeTabId := "default-tab" }

/-- `handleNewTab`: append a fresh default session and make it active.
`freshId` stands for the randomly generated identifier. -/
def handleNewTab (freshId : String) (s : SessionStore) : SessionStore :=
  { tabs := s.tabs ++ [createNewTab freshId], activeTabId := freshId }

/-- `handleCloseTab`: remove the session; if none remain, synthesize a fresh
default session; if the closed session was active, activate the last
remaining one. -/
def handleCloseTab (freshId : String) (id : String) (s : SessionStore) : SessionStore :=
  let newTabs := s.tabs.filter (fun t => t.id != id)
  if newTabs.isEmpty then
    { tabs := [createNewTab freshId], activeTabId := freshId }
  else
    { tabs := newTabs
      activeTabId :=
        if id == s.activeTabId then (newTabs.getLastD (createNewTab freshId)).id
        else s.activeTabId }

/-- `handleTabSwitch`: select another session; the collection is untouched. -/
def handleTabSwitch (id : String) (s : SessionStore) : SessionStore :=
  { tabs := s.tabs, activeTabId := id }

/-- Drop a leading run of `\s` characters (the `\s*` of the diagram marker
pattern). -/
def dropJsSpaces : List Char → List Char
  | [] => []
  | c :: rest => if isJsSpaceChar c then dropJsSpaces rest else c :: rest

/-- Capture the lazy `(.*?)\]` part of the diagram marker pattern: the
characters up to the first `]`, failing on a line terminator or on end of
input. Returns the prompt and the remainder after the closing bracket. -/
def takePrompt : List Char → Option (List Char × List Char)
  | [] => none
  | c :: rest =>
    if c == ']' then some ([], rest)
    else if isJsLineTerminator c then none
    else
      match takePrompt rest with
      | some (p, rem) => some (c :: p, rem)
      | none => none

/-- Fuel-driven scan for `/\[DIAGRAM:\s*(.*?)\]/g` over a character list:
at each position try to match the literal tag, skip whitespace, capture up
to the closing bracket, and continue after the match (or at the next
position on failure). The fuel starts at the list length, which bounds the
number of scanning steps. -/
def scanDiagramsAux : Nat → List Char → List String
  | 0, _ => []
  | _, [] => []
  | fuel + 1, c :: rest =>
    match stripLit ("[DIAGRAM:".data) (c :: rest) with
    | some afterTag =>
      match takePrompt (dropJsSpaces afterTag) with
      | some (p, rem) => String.mk p :: scanDiagramsAux fuel rem
      | none => scanDiagramsAux fuel rest
    | none => scanDiagramsAux fuel rest

/-- All diagram prompts extracted from a content string, in match order. -/
def extractDiagramPrompts (content : String) : List String :=
  scanDiagramsAux content.data.length content.data

/-- One run of the diagram generation effect for session `t` against the
pending-request set `pending` (the contents of `pendingDiagramsRef`,
which in the source is a single ref shared by every session). For each
extracted prompt not already resolved in the session's diagram map
(an empty stored image is falsy) and not in the pending set, a request is
issued and the prompt enters the pending set. Returns the issued requests
in order together with the updated pending set. -/
def diagramEffect (pending : List String) (t : Tab) : List String × List String :=
  (extractDiagramPrompts t.content).foldl
    (fun acc p =>
      let alreadyResolved :=
        match List.lookup p t.generatedDiagrams with
        | some v => v != ""
        | none => false
      if !alreadyResolved && !acc.2.contains p then (acc.1 ++ [p], p :: acc.2) else acc)
    ([], pending)

/-- Identity of one in-flight generation: the id of the session it was
started for (captured as `activeTabId` in the effect closure) and whether
its cleanup has set the cooperative `isCancelled` flag. -/
structure GenState where
  tabId : String
  cancelled : Bool
deriving DecidableEq, Repr

/-- The per-chunk state write of `fetchData`:
`setTabs(prev => prev.map(t => t.id === activeTabId ? {...t, content, groundingSources} : t))` —
a keyed update that rewrites only the session whose identity equals the
generation's captured identity. -/
def writeChunk (tabId : String) (c : String) (srcs : List String) (tabs : List Tab) : List Tab :=
  tabs.map fun t =>
    if t.id == tabId then { t with content := c, groundingSources := srcs } else t

/-- Application of one stream event by a generation: discarded entirely when
the generation has been cancelled (`if (isCancelled) break`), otherwise a
keyed write to its own session. -/
def applyGenEvent (g : GenState) (c : String) (srcs : List String) (tabs : List Tab) : List Tab :=
  if g.cancelled then tabs else writeChunk g.tabId c srcs tabs

/-- An arbitrary interleaving of stream events from concurrent generations,
applied in receipt order under the single-threaded scheduling model. -/
def runEvents (evs : List (GenState × String × List String)) (tabs : List Tab) : List Tab :=
  evs.foldl (fun acc e => applyGenEvent e.1 e.2.1 e.2.2 acc) tabs

/-- Session lookup by identity in the store's collection. -/
def getTab (tabs : List Tab) (id : String) : Option Tab :=
  tabs.find? (fun t => t.id == id)

/-- The history-navigation view of a session: the two stacks, the current
topic and the remote section index. -/
structure NavState where
  hist : List String
  cur : String
  fut : List String
  sec : Nat
deriving DecidableEq, Repr

/-- `handleBack` restricted to the navigation view. -/
def backT (s : NavState) : NavState :=
  match s.hist.getLast? with
  | none => s
  | some p => { hist := s.hist.dropLast, cur := p, fut := s.cur :: s.fut, sec := 0 }

/-- `handleForward` restricted to the navigation view. -/
def forwardT (s : NavState) : NavState :=
  match s.fut with
  | [] => s
  | n :: rest => { hist := s.hist ++ [s.cur], cur := n, fut := rest, sec := 0 }

/-- Projection of a session onto its navigation view. -/
def navOf (t : Tab) : NavState :=
  { hist := t.historyStack, cur := t.currentTopic, fut := t.futureStack, sec := t.webSectionIndex }

/-- Concrete session states used to instantiate the claims. `baseTab` is the
default session after the init effect has set the startup topic. -/
def baseTab : Tab :=
  { createNewTab "default-tab" with currentTopic := "Hypertext", isLoading := true, title := "Hypertext" }

/-- A `find?` over a map with an id-preserving, match-fixing function finds
the same element. -/
theorem find?_map_eq (l : List Tab) (f : Tab → Tab) (p : Tab → Bool)
    (hid : ∀ t, p (f t) = p t) (hfix : ∀ t, p t = true → f t = t) :
    (l.map f).find? p = l.find? p := by
  induction l with
  | nil => rfl
  | cons a l ih =>
    cases hp : p a with
    | true => simp [List.find?, hid a, hp, hfix a hp]
    | false => simp [List.find?, hid a, hp, ih]

/-- A keyed chunk write for one session leaves every other session's record
untouched. -/
theorem getTab_writeChunk_ne (tid bId c : String) (srcs : List String)
    (tabs : List Tab) (h : bId ≠ tid) :
    getTab (writeChunk tid c srcs tabs) bId = getTab tabs bId := by
  unfold getTab writeChunk
  apply find?_map_eq
  · intro t
    by_cases ht : (t.id == tid) = true <;> simp [ht]
  · intro t hpt
    have hb : t.id = bId := by simpa using hpt
    have ht : (t.id == tid) = false := by
      rw [hb]
      simpa using h
    simp [ht]

/-- Any interleaved sequence of events all belonging to generations captured
for session `aId` leaves every other session's record untouched. -/
theorem getTab_runEvents_other :
    ∀ (evs : List (GenState × String × List String)) (tabs : List Tab) (aId bId : String),
    bId ≠ aId → (∀ e ∈ evs, e.1.tabId = aId) →
    getTab (runEvents evs tabs) bId = getTab tabs bId := by
  intro evs
  induction evs with
  | nil => intro tabs aId bId _ _; rfl
  | cons e evs ih =>
    intro tabs aId bId hne hall
    have he : e.1.tabId = aId := hall e (by simp)
    have hstep : getTab (applyGenEvent e.1 e.2.1 e.2.2 tabs) bId = getTab tabs bId := by
      unfold applyGenEvent
      by_cases hc : e.1.cancelled = true
      · rw [if_pos hc]
      · rw [if_neg hc]
        exact getTab_writeChunk_ne _ _ _ _ _ (by rw [he]; exact hne)
    have hrw : runEvents (e :: evs) tabs = runEvents evs (applyGenEvent e.1 e.2.1 e.2.2 tabs) := rfl
    rw [hrw, ih _ aId bId hne (fun x hx => hall x (by simp [hx])), hstep]

/-- Claim C2: every state update produced by a generation is a keyed write
applied only to the session whose identity equals the generation's captured
identity, so for any interleaving of events from generations captured for
session A, every other session B is untouched; and once a generation's
cancellation flag is set, its events are discarded without mutating any
session. -/
theorem claim_C2_isolation :
    (∀ (evs : List (GenState × String × List String)) (tabs : List Tab) (aId bId : String),
      bId ≠ aId → (∀ e ∈ evs, e.1.tabId = aId) →
      getTab (runEvents evs tabs) bId = getTab tabs bId)
    ∧ (∀ (g : GenState) (c : String) (srcs : List String) (tabs : List Tab),
      g.cancelled = true → applyGenEvent g c srcs tabs = tabs) := by
  constructor
  · exact getTab_runEvents_other
  · intro g c srcs tabs hc
    unfold applyGenEvent
    rw [if_pos hc]

/-- Witness for C2 at a concrete interleaving: one event of a generation for
session A leaves session B's record unchanged, and a cancelled generation's
event changes nothing. -/
theorem claim_C2_witness :
    getTab (runEvents [({ tabId := "A", cancelled := false }, "hello", ["s"])]
        [createNewTab "A", createNewTab "B"]) "B" =
      getTab [createNewTab "A", createNewTab "B"] "B" ∧
    applyGenEvent { tabId := "A", cancelled := true } "x" [] [createNewTab "B"] =
      [createNewTab "B"] := by
  constructor
  · exact claim_C2_isolation.1 _ _ "A" "B" (by decide)
      (by intro e he; simp at he; rw [he])
  · exact claim_C2_isolation.2 _ "x" [] _ rfl

/-- `handleBack` acts on the navigation view as `backT`. -/
theorem navOf_handleBack (t : Tab) : navOf (handleBack t) = backT (navOf t) := by
  rcases t with ⟨i, ti, hist, fut, cur, co, lo, er, ge, gr, ws, eb, dn, dc, fd, ep, cp, wu, wsi, gd, la⟩
  unfold handleBack backT navOf
  cases hist.getLast? <;> rfl

/-- `handleForward` acts on the navigation view as `forwardT`. -/
theorem navOf_handleForward (t : Tab) : navOf (handleForward t) = forwardT (navOf t) := by
  rcases t with ⟨i, ti, hist, fut, cur, co, lo, er, ge, gr, ws, eb, dn, dc, fd, ep, cp, wu, wsi, gd, la⟩
  unfold handleForward forwardT navOf
  cases fut <;> rfl

/-- Iterated `handleBack` simulates iterated `backT` on the navigation view. -/
theorem navOf_iter_back (n : Nat) (t : Tab) :
    navOf (handleBack^[n] t) = backT^[n] (navOf t) := by
  induction n generalizing t with
  | zero => rfl
  | succ n ih =>
    rw [Function.iterate_succ_apply, Function.iterate_succ_apply, ih (handleBack t),
      navOf_handleBack]

/-- Iterated `handleForward` simulates iterated `forwardT` on the navigation
view. -/
theorem navOf_iter_forward (n : Nat) (t : Tab) :
    navOf (handleForward^[n] t) = forwardT^[n] (navOf t) := by
  induction n generalizing t with
  | zero => rfl
  | succ n ih =>
    rw [Function.iterate_succ_apply, Function.iterate_succ_apply, ih (handleForward t),
      navOf_handleForward]

/-- The zipper property of the two stacks: `n` pops followed by `n` mirror
pushes restore the stacks and the current topic, while the section index
ends at the default 0 whenever at least one real navigation happened. -/
theorem forwardT_backT_iter :
    ∀ (n : Nat) (s : NavState), n ≤ s.hist.length →
    forwardT^[n] (backT^[n] s) =
      { hist := s.hist, cur := s.cur, fut := s.fut, sec := if n = 0 then s.sec else 0 } := by
  intro n
  induction n with
  | zero => intro s _; cases s; simp
  | succ n ih =>
    intro s hlen
    rcases List.eq_nil_or_concat s.hist with hnil | ⟨L, b, hLb⟩
    · rw [hnil] at hlen
      simp at hlen
    · have hback : backT s = { hist := L, cur := b, fut := s.cur :: s.fut, sec := 0 } := by
        unfold backT
        rw [hLb]
        simp
      have hlen2 : n ≤ (NavState.hist { hist := L, cur := b, fut := s.cur :: s.fut, sec := 0 }).length := by
        show n ≤ L.length
        rw [hLb] at hlen
        simp at hlen
        omega
      have hstep := ih { hist := L, cur := b, fut := s.cur :: s.fut, sec := 0 } hlen2
      rw [Function.iterate_succ_apply backT n s, hback,
        Function.iterate_succ_apply' forwardT n
          (backT^[n] { hist := L, cur := b, fut := s.cur :: s.fut, sec := 0 }),
        hstep]
      unfold forwardT
      simp [hLb, List.concat_eq_append]

/-- Counterexample session for C4: a stable topic reached with the remote
section index advanced past its default. -/
def c4Tab : Tab :=
  { createNewTab "nav-tab" with historyStack := ["a"], currentTopic := "b", webSectionIndex := 1 }

/-- Claim C4 as stated is false: from `c4Tab` (history depth 1, remote
section index 1), one `back()` followed by one `forward()` restores the
current topic but resets the remote section index to 0 instead of its
original value 1, because both handlers write `webSectionIndex: 0`. -/
theorem claim_C4_counterexample :
    (handleForward (handleBack c4Tab)).currentTopic = c4Tab.currentTopic ∧
    (handleForward (handleBack c4Tab)).webSectionIndex ≠ c4Tab.webSectionIndex := by
  decide

/-- Claim C4 amended: for any `N` at most the history depth, `N` `back()`
calls followed by `N` `forward()` calls restore the current topic (and both
stacks); the remote section index is reset to its default 0 whenever
`N ≥ 1` (hence it is restored exactly when it already was at the default);
`back()` is a no-op on an empty history stack and `forward()` is a no-op on
an empty future stack. -/
theorem claim_C4_history_amended (t : Tab) (n : Nat) (h : n ≤ t.historyStack.length) :
    (handleForward^[n] (handleBack^[n] t)).currentTopic = t.currentTopic ∧
    (handleForward^[n] (handleBack^[n] t)).historyStack = t.historyStack ∧
    (handleForward^[n] (handleBack^[n] t)).futureStack = t.futureStack ∧
    (handleForward^[n] (handleBack^[n] t)).webSectionIndex =
      (if n = 0 then t.webSectionIndex else 0) ∧
    (t.historyStack = [] → handleBack t = t) ∧
    (t.futureStack = [] → handleForward t = t) := by
  have hnav : navOf (handleForward^[n] (handleBack^[n] t)) =
      { hist := t.historyStack, cur := t.currentTopic, fut := t.futureStack,
        sec := if n = 0 then t.webSectionIndex else 0 } := by
    rw [navOf_iter_forward, navOf_iter_back]
    exact forwardT_backT_iter n (navOf t) h
  refine ⟨?_, ?_, ?_, ?_, ?_, ?_⟩
  · exact congrArg NavState.cur hnav
  · exact congrArg NavState.hist hnav
  · exact congrArg NavState.fut hnav
  · exact congrArg NavState.sec hnav
  · intro hh
    unfold handleBack
    rw [hh]
    rfl
  · intro hh
    unfold handleForward
    rw [hh]

/-- Witness session for the amended C4: history depth 2, default section
index. -/
def c4WTab : Tab :=
  { createNewTab "nav-w" with historyStack := ["x", "y"], currentTopic := "z" }

/-- Witness for the amended C4 at `N = 2` on `c4WTab`. -/
theorem claim_C4_witness :
    2 ≤ c4WTab.historyStack.length ∧
    (handleForward^[2] (handleBack^[2] c4WTab)).currentTopic = c4WTab.currentTopic := by
  exact ⟨by decide, (claim_C4_history_amended c4WTab 2 (by decide)).1⟩

/-- First completed generation for the startup topic: two streamed chunks,
normal completion, measured time 7. Its `finally` block puts the fingerprint
into the cache. -/
def c1FirstRun : Tab × Cache :=
  runFetch baseTab []
    [{ text := "Hyper", sources := none }, { text := "text def", sources := some ["src"] }]
    StreamOutcome.ok 7

/-- Claim C1 as stated is false: after the first generation for
`"Hypertext"` has completed (so the Result Cache holds its fingerprint), a
second fetch request for the same topic issued through `handleTopicChange`
sets the loading flag, which makes the cache branch's
`!activeTab.isLoading` guard fail; the effect therefore runs `fetchData`
and issues a fresh network call instead of hydrating from the cache. -/
theorem claim_C1_counterexample :
    mainEffectAction (handleTopicChange "Hypertext" c1FirstRun.1) c1FirstRun.2 =
      FetchAction.fetch Strategy.definition "wiki:hypertext:0:English" ∧
    List.lookup (cacheKey (handleTopicChange "Hypertext" c1FirstRun.1)) c1FirstRun.2 ≠ none := by
  decide

/-- A session never still marked loading can never be hydrated — helper for
the amended C1. -/
theorem mainEffectAction_loading_ne_hydrate (t : Tab) (cache : Cache)
    (hl : t.isLoading = true) (entry : CachedTopicState) :
    mainEffectAction t cache ≠ FetchAction.hydrate entry := by
  unfold mainEffectAction
  rw [hl]
  repeat' split
  all_goals simp_all
  split <;> simp

/-- Claim C1 amended: completing a generation writes the fingerprint's cache
entry holding exactly the accumulated (byte-identical) content; a later
fetch for the same fingerprint hydrates that content from the cache and
stops — but only when the session is not marked loading and its displayed
content is empty. A second fetch request issued through topic selection
sets the loading flag, so it can never take the hydration path and instead
issues a fresh network call. -/
theorem claim_C1_cache_amended :
    (∀ (t : Tab) (cache : Cache) (evs : List StreamEv) (g : Nat),
      List.lookup (cacheKey t) (runFetch t cache evs StreamOutcome.ok g).2 =
        some { content := (accumulate evs).1, generationTime := some g,
               sources := (accumulate evs).2, language := t.language })
    ∧ (∀ (t : Tab) (cache : Cache) (entry : CachedTopicState),
      List.lookup (cacheKey t) cache = some entry →
      t.isLoading = false → t.content = "" → t.currentTopic ≠ "" → ebookLocalText t = false →
      mainEffectAction t cache = FetchAction.hydrate entry ∧
      (applyHydrate t entry).content = entry.content)
    ∧ (∀ (t : Tab) (cache : Cache) (topic : String), topic ≠ "" →
      (handleTopicChange topic t).isLoading = true ∧
      ∀ entry, mainEffectAction (handleTopicChange topic t) cache ≠ FetchAction.hydrate entry) := by
  refine ⟨?_, ?_, ?_⟩
  · intro t cache evs g
    simp [runFetch, List.lookup]
  · intro t cache entry hlk hload hcontent htopic hebook
    refine ⟨?_, rfl⟩
    have h1 : (t.currentTopic == "") = false := by simpa using htopic
    simp [mainEffectAction, h1, hebook, hlk, hload, hcontent]
  · intro t cache topic htopic
    have hupd : (handleTopicChange topic t).isLoading = true := by
      unfold handleTopicChange
      rw [if_neg (by simpa using htopic)]
    refine ⟨hupd, ?_⟩
    intro entry
    exact mainEffectAction_loading_ne_hydrate _ cache hupd entry

/-- A cache entry used to exercise the hydration path in the C1 witness. -/
def c1Entry : CachedTopicState :=
  { content := "Cached definition", generationTime := some 1, sources := [], language := "English" }

/-- Witness for the amended C1 at concrete inputs: a completed run writes
its fingerprint, a quiescent session with empty content hydrates from the
cache, and a topic re-selection marks the session loading. -/
theorem claim_C1_witness :
    List.lookup (cacheKey baseTab) (runFetch baseTab [] [] StreamOutcome.ok 3).2 =
      some { content := (accumulate []).1, generationTime := some 3,
             sources := (accumulate []).2, language := baseTab.language } ∧
    mainEffectAction { createNewTab "h1" with currentTopic := "Hypertext" }
        [("wiki:hypertext:0:English", c1Entry)] = FetchAction.hydrate c1Entry ∧
    (handleTopicChange "Hypertext" baseTab).isLoading = true := by
  refine ⟨claim_C1_cache_amended.1 baseTab [] [] 3, ?_,
    (claim_C1_cache_amended.2.2 baseTab [] "Hypertext" (by decide)).1⟩
  exact (claim_C1_cache_amended.2.1 _ _ c1Entry (by decide) rfl rfl (by decide) (by decide)).1

/-- Claim C3 as stated is false: a generation for `baseTab` that streams one
chunk and then terminates with a stream error does set the session error
and content, but the `finally` block (which runs after `catch`) still
writes a Result Cache entry for the generation's fingerprint, holding the
partially accumulated content. -/
theorem claim_C3_counterexample :
    (runFetch baseTab [] [{ text := "partial", sources := none }]
        (StreamOutcome.err "boom") 5).1.error = some "boom" ∧
    (List.lookup (cacheKey baseTab)
        (runFetch baseTab [] [{ text := "partial", sources := none }]
          (StreamOutcome.err "boom") 5).2) =
      some { content := "partial", generationTime := some 5, sources := [], language := "English" } := by
  decide

/-- Claim C3 amended: when a streaming generation terminates with a stream
error, the orchestrator sets the session's error field and clears the
loading flag, but — contrary to the claim — the `finally` block still
writes a Result Cache entry for the generation's fingerprint containing
the partially accumulated content. -/
theorem claim_C3_error_amended (t : Tab) (cache : Cache) (evs : List StreamEv)
    (msg : String) (g : Nat) :
    (runFetch t cache evs (StreamOutcome.err msg) g).1.error = some msg ∧
    (runFetch t cache evs (StreamOutcome.err msg) g).1.isLoading = false ∧
    List.lookup (cacheKey t) (runFetch t cache evs (StreamOutcome.err msg) g).2 =
      some { content := (accumulate evs).1, generationTime := some g,
             sources := (accumulate evs).2, language := t.language } := by
  refine ⟨rfl, rfl, ?_⟩
  simp [runFetch, List.lookup]

/-- Two distinct sessions whose content contains the same diagram marker,
and one session containing it twice — inputs for C5. -/
def c5TabA : Tab := { createNewTab "A" with content := "[DIAGRAM: X]" }

/-- Second session with the same marker prompt as `c5TabA`. -/
def c5TabB : Tab := { createNewTab "B" with content := "[DIAGRAM: X]" }

/-- A session whose content contains the same marker prompt twice. -/
def c5TabTwice : Tab := { createNewTab "C" with content := "[DIAGRAM: X] and again [DIAGRAM: X]" }

/-- Claim C5 describes the intended design, but the code has the bug the
spec itself flags: `pendingDiagramsRef` is a single ref shared by every
session, so after session A's effect puts prompt `X` into the pending set,
running the effect for session B with the same shared set issues no request
for `X` at all — the cross-session suppression the claim rules out. The
within-session half holds: the same prompt twice in one session's content
yields exactly one request. -/
theorem claim_C5_shared_pending_bug :
    (diagramEffect [] c5TabA).1 = ["X"] ∧
    (diagramEffect (diagramEffect [] c5TabA).2 c5TabB).1 = [] ∧
    (diagramEffect [] c5TabTwice).1 = ["X"] := by
  decide

/-- Claim C6 as stated is false: the fingerprint computed for the startup
session (topic `"Hypertext"`, language `"English"`, no document) is
`wiki:hypertext:0:English` with a single colon after the mode prefix — the
template `` `${'wiki:'}${topic.toLowerCase()}:...` `` inserts no second
colon — not the claimed `wiki::hypertext:0:English`. -/
theorem claim_C6_counterexample :
    cacheKey baseTab ≠ "wiki::hypertext:0:English" := by
  decide

/-- Claim C6 amended: for topic `"Hypertext"`, language `"English"` and no
document loaded, the selected strategy is definition lookup and the
fingerprint is exactly the string `wiki:hypertext:0:English`, a
deterministic function (`cacheKey`) of mode, document identity, normalized
topic, section index and language. -/
theorem claim_C6_fingerprint_amended :
    selectStrategy baseTab = Strategy.definition ∧
    cacheKey baseTab = "wiki:hypertext:0:English" := by
  decide

/-- A paginated-document session reading page 0 in a non-base language with
the loading flag set — the state in which the translation branch fires. -/
def c7Tab : Tab :=
  { createNewTab "reader" with
      isEbookMode := true
      documentName := some "book.txt"
      documentContext := some "full text"
      ebookPages := ["p0", "p1"]
      currentPage := 0
      language := "French"
      isLoading := true
      currentTopic := "book.txt"
      content := "" }

/-- Claim C7 as stated is false: the ebook translation branch returns before
the cache logic and contains no cache write, so after a first translation
of page 0 completes (cache still empty), revisiting the same page in the
same language (next page, then previous page) triggers a second
`streamTranslation` call instead of a cache hit. -/
theorem claim_C7_counterexample :
    (runTranslation c7Tab [] ["Bonjour"]).2 = [] ∧
    mainEffectAction (handlePrevPage (handleNextPage (runTranslation c7Tab [] ["Bonjour"]).1)) [] =
      FetchAction.translate "p0" "French" := by
  decide

/-- Claim C7 amended: while reading a locally paginated document in a
non-base language, the displayed page content is produced by a distinct
streaming translation call (`streamTranslation(pageText, language)`), but
its result is not written to the Result Cache under any fingerprint:
every visit to a page in that state — including a revisit of the same page
in the same language — re-issues the translation call. -/
theorem claim_C7_translation_amended (t : Tab) (cache : Cache) (chunks : List String) (d : String)
    (h1 : t.isEbookMode = true) (h2 : t.isWebSearchMode = false) (h3 : t.fileData = none)
    (h4 : t.documentContext = some d) (h5 : d ≠ "") (h6 : t.language ≠ "English")
    (h7 : t.isLoading = true) (h8 : t.currentTopic ≠ "") :
    mainEffectAction t cache =
      FetchAction.translate (pageAtD t.ebookPages t.currentPage) t.language ∧
    (runTranslation t cache chunks).2 = cache := by
  refine ⟨?_, rfl⟩
  have hb : ebookLocalText t = true := by
    simp [ebookLocalText, h1, h2, h3, h4, nonEmptyOpt, h5]
  have htop : (t.currentTopic == "") = false := by simpa using h8
  have hlang : (t.language != "English") = true := by simpa using h6
  simp [mainEffectAction, htop, hb, hlang, h7]

/-- Witness for the amended C7 at the concrete reader session `c7Tab`. -/
theorem claim_C7_witness :
    mainEffectAction c7Tab [] = FetchAction.translate "p0" "French" ∧
    (runTranslation c7Tab [] ["Bonjour"]).2 = [] := by
  have h := claim_C7_translation_amended c7Tab [] ["Bonjour"] "full text"
    rfl rfl rfl rfl (by decide) (by decide) rfl (by decide)
  exact ⟨by rw [h.1]; decide, h.2⟩

/-- Claim C8: any topic whose trimmed form matches the YouTube URL pattern
routes to the video-summary strategy in every session without an image
attachment — regardless of the web-search toggle, a loaded document, or any
other mode flag — because the `isYouTubeUrl` branch of `fetchData` precedes
the web-search and document branches (only the image-attachment branch
precedes it). -/
theorem claim_C8_youtube_precedence (t : Tab)
    (himg : hasImageAttachment t = false)
    (hyt : isYouTubeUrl (jsTrim t.currentTopic) = true) :
    selectStrategy t = Strategy.videoSummary := by
  simp [selectStrategy, himg, hyt]

/-- The scenario session for C8: topic `"https://youtu.be/abc123"` with
web-search mode enabled. -/
def c8Tab : Tab :=
  { createNewTab "yt" with currentTopic := "https://youtu.be/abc123", isWebSearchMode := true }

/-- Witness for C8: the concrete scenario topic with web-search mode on is
classified as video summary. -/
theorem claim_C8_witness :
    hasImageAttachment c8Tab = false ∧
    isYouTubeUrl (jsTrim c8Tab.currentTopic) = true ∧
    selectStrategy c8Tab = Strategy.videoSummary := by
  exact ⟨by decide, by decide, claim_C8_youtube_precedence c8Tab (by decide) (by decide)⟩

/-- Claim C9: the Session Store is never empty — it starts seeded with one
default session, closing a session always leaves at least one (closing the
last one synthesizes a fresh default session), opening a tab only adds, and
switching tabs leaves the collection untouched. -/
theorem claim_C9_store_nonempty :
    initialStore.tabs ≠ [] ∧
    (∀ (freshId id : String) (s : SessionStore), (handleCloseTab freshId id s).tabs ≠ []) ∧
    (∀ (freshId : String) (s : SessionStore), (handleNewTab freshId s).tabs ≠ []) ∧
    (∀ (id : String) (s : SessionStore), (handleTabSwitch id s).tabs = s.tabs) := by
  refine ⟨by decide, ?_, ?_, fun id s => rfl⟩
  · intro freshId id s
    cases hf : s.tabs.filter (fun t => t.id != id) with
    | nil => simp [handleCloseTab, hf]
    | cons a l => simp [handleCloseTab, hf]
  · intro freshId s
    simp [handleNewTab]

/-- Claim C10: with an empty local page list (as after a binary/multimodal
attachment) and page index 0, `handleNextPage` computes
`min(0 + 1, 0 - 1) = -1`, so the index leaves the range `[0, pageCount-1]`;
`handlePrevPage` clamps with `max(·, 0)` and never takes the index below
zero. -/
theorem claim_C10_pagination (t u : Tab)
    (h1 : t.ebookPages = []) (h2 : t.currentPage = 0) :
    (handleNextPage t).currentPage = -1 ∧ 0 ≤ (handlePrevPage u).currentPage := by
  constructor
  · show min (t.currentPage + 1) ((t.ebookPages.length : Int) - 1) = -1
    rw [h1, h2]
    decide
  · show 0 ≤ max (u.currentPage - 1) 0
    exact le_max_right _ _

/-- Witness for C10 on a fresh default session (empty page list, page 0). -/
theorem claim_C10_witness :
    (handleNextPage (createNewTab "p")).currentPage = -1 ∧
    0 ≤ (handlePrevPage (createNewTab "p")).currentPage := by
  exact claim_C10_pagination (createNewTab "p") (createNewTab "p") rfl rfl
